import Mathlib

/-
Shallow embedding of scripts/get_site_lat_lon.py.

The script reads every .xlsx file in a hard-coded directory, extracts a site
identifier and a latitude/longitude pair from each file, builds a table with
one row per file, coerces the coordinate columns to numbers, applies the
external helper latlon_to_modis row-wise, and writes the table to a
hard-coded CSV path.

Modelling choices:
  * An .xlsx file as read by pandas is a list of named columns of string
    cells (XlsxFile).  Column selection f["NAME"] raises KeyError when the
    column is absent, and .values[0] raises IndexError when the column is
    empty: both are modelled by Option.
  * All uncaught Python exceptions are modelled as the value none: a step
    returning none means the script terminates there with an error, and
    every later step (including the CSV write) does not happen.
  * pd.DataFrame(map(get_site_lat_lon, sites)) forces the whole generator:
    it is modelled by mapOpt, which propagates the first error.
  * A DataFrame built from an empty iterable of records has no columns, so
    a later column selection on it raises KeyError.  df_column models this:
    selecting a record field as a column fails on an empty table.
  * pd.to_numeric and latlon_to_modis live outside this file's source
    (pandas / an external helper), so the pipeline is parametrised by an
    arbitrary numeric parser `parse : String → Option Q` and an arbitrary
    transform `latlon_to_modis : Q → Q → M × M`.
  * to_csv with index=False writes a header line followed by one line of
    five rendered cells per row, with no index column.
-/

/-- Hard-coded input directory, line 7 of the script. -/
def site_dir : String := "data_in/ameriflux_canopy_eb/"

/-- Hard-coded output path, line 39 of the script. -/
def out_path : String := "data_out/ameriflux_canopy_temp_site_locs.csv"

/-- A spreadsheet file as seen by pd.read_excel: named columns of cells. -/
structure XlsxFile where
  cols : List (String × List String)
  deriving DecidableEq

/-- Column selection f["name"]: the first column with that name, or a
KeyError (none) when absent. -/
def XlsxFile.getCol (f : XlsxFile) (name : String) : Option (List String) :=
  (f.cols.find? (fun c => c.1 == name)).map (fun c => c.2)

/-- The record built for one file by get_site_lat_lon (the dict `out`),
with string-valued coordinates, insertion order SITE_ID, LAT, LONG. -/
structure SiteRec where
  SITE_ID : String
  LOCATION_LAT : String
  LOCATION_LONG : String
  deriving DecidableEq

/-- The expression f[f["VARIABLE"].isin([tv])]["DATAVALUE"].values[0]:
filter the rows whose VARIABLE cell equals tv, take the DATAVALUE of the
first such row; IndexError (none) when no row matches, KeyError (none)
when a column is missing. -/
def lookup_target (f : XlsxFile) (tv : String) : Option String :=
  (f.getCol "VARIABLE").bind fun varCol =>
    (f.getCol "DATAVALUE").bind fun dataCol =>
      (((varCol.zip dataCol).filter (fun p => p.1 == tv)).map (fun p => p.2)).head?

/-- Lines 12-22: extract SITE_ID (first value of the SITE_ID column) and
then the DATAVALUE of the first LOCATION_LAT and LOCATION_LONG rows. -/
def get_site_lat_lon (f : XlsxFile) : Option SiteRec :=
  (f.getCol "SITE_ID").bind fun sidCol =>
    sidCol.head?.bind fun sid =>
      (lookup_target f "LOCATION_LAT").bind fun lat =>
        (lookup_target f "LOCATION_LONG").bind fun long =>
          some ⟨sid, lat, long⟩

/-- Error-propagating map: forcing a generator of fallible per-file reads
(pd.DataFrame(map(...)) on line 24, and column-wise pd.to_numeric). -/
def mapOpt {α β : Type} (f : α → Option β) : List α → Option (List β)
  | [] => some []
  | a :: as =>
    (f a).bind fun b => (mapOpt f as).bind fun bs => some (b :: bs)

/-- Selecting a column of a DataFrame of records: a DataFrame built from an
empty iterable has no columns, so selection raises KeyError (none). -/
def df_column {α β : Type} (rows : List α) (proj : α → β) : Option (List β) :=
  if rows.isEmpty then none else some (rows.map proj)

/-- pd.to_numeric on a column: parse every cell, first failure aborts. -/
def to_numeric {Q : Type} (parse : String → Option Q) (col : List String) :
    Option (List Q) :=
  mapOpt parse col

/-- The table after lines 27-28: SITE_ID kept, coordinates now numeric. -/
structure SiteRecNum (Q : Type) where
  SITE_ID : String
  LOCATION_LAT : Q
  LOCATION_LONG : Q
  deriving DecidableEq

/-- Reassembling the table after both column assignments of lines 27-28:
row i keeps its SITE_ID and gets the i-th parsed latitude and longitude. -/
def zipNum {Q : Type} : List SiteRec → List Q → List Q → List (SiteRecNum Q)
  | r :: rs, a :: as, b :: bs => ⟨r.SITE_ID, a, b⟩ :: zipNum rs as bs
  | _, _, _ => []

/-- Lines 26-28: coerce the LOCATION_LAT column, then the LOCATION_LONG
column, of the extracted table.  Each selection fails on an empty table. -/
def coerce_numeric {Q : Type} (parse : String → Option Q) (recs : List SiteRec) :
    Option (List (SiteRecNum Q)) :=
  (df_column recs SiteRec.LOCATION_LAT).bind fun latStrs =>
    (to_numeric parse latStrs).bind fun lats =>
      (df_column recs SiteRec.LOCATION_LONG).bind fun longStrs =>
        (to_numeric parse longStrs).bind fun longs =>
          some (zipNum recs lats longs)

/-- A row of the final table, column insertion order SITE_ID, LAT, LONG,
MODIS_X, MODIS_Y. -/
structure OutRow (Q M : Type) where
  SITE_ID : String
  LOCATION_LAT : Q
  LOCATION_LONG : Q
  LOCATION_MODIS_X : M
  LOCATION_MODIS_Y : M
  deriving DecidableEq

/-- Assigning the two MODIS columns (lines 34-35) back onto the table. -/
def zipOut {Q M : Type} : List (SiteRecNum Q) → List (M × M) → List (OutRow Q M)
  | r :: rs, m :: ms =>
    ⟨r.SITE_ID, r.LOCATION_LAT, r.LOCATION_LONG, m.1, m.2⟩ :: zipOut rs ms
  | _, _ => []

/-- Lines 30-35: itertuples over the (LAT, LONG) columns, map
latlon_to_modis with latitude as the first argument, assign component 0 to
LOCATION_MODIS_X and component 1 to LOCATION_MODIS_Y. -/
def add_modis {Q M : Type} (latlon_to_modis : Q → Q → M × M)
    (recs : List (SiteRecNum Q)) : List (OutRow Q M) :=
  let site_points_latlon := recs.map (fun r => (r.LOCATION_LAT, r.LOCATION_LONG))
  let site_points_modis := site_points_latlon.map (fun x => latlon_to_modis x.1 x.2)
  zipOut recs site_points_modis

/-- The whole in-memory pipeline of the script, from the list of files the
glob enumerated to the final table (none = uncaught error, script dies). -/
def run_script {Q M : Type} (parse : String → Option Q)
    (latlon_to_modis : Q → Q → M × M) (sites : List XlsxFile) :
    Option (List (OutRow Q M)) :=
  (mapOpt get_site_lat_lon sites).bind fun site_locs =>
    (coerce_numeric parse site_locs).bind fun nums =>
      some (add_modis latlon_to_modis nums)

/-- The header written by to_csv: the DataFrame's columns in insertion
order, no index column (index=False). -/
def csv_header : List String :=
  ["SITE_ID", "LOCATION_LAT", "LOCATION_LONG", "LOCATION_MODIS_X", "LOCATION_MODIS_Y"]

/-- Line 39: render the table as CSV lines, header first, one line of five
cells per row, no index column. -/
def to_csv {Q M : Type} (showQ : Q → String) (showM : M → String)
    (rows : List (OutRow Q M)) : List (List String) :=
  csv_header ::
    rows.map (fun r =>
      [r.SITE_ID, showQ r.LOCATION_LAT, showQ r.LOCATION_LONG,
       showM r.LOCATION_MODIS_X, showM r.LOCATION_MODIS_Y])

/-- The script as an operating-system-level process: it receives the
command line and the environment, but never reads either (the source has
no sys.argv and no os.environ access); it reads only the directory
contents and, on success, writes the rendered CSV to the hard-coded
out_path. -/
def run_script_io {Q M : Type} (argv : List String) (env : String → Option String)
    (parse : String → Option Q) (latlon_to_modis : Q → Q → M × M)
    (showQ : Q → String) (showM : M → String) (dirContents : List XlsxFile) :
    Option (String × List (List String)) :=
  (run_script parse latlon_to_modis dirContents).map
    (fun out => (out_path, to_csv showQ showM out))

/-- Per-file summary of the whole pipeline: extract, parse both
coordinates, apply latlon_to_modis.  run_script is proved below to agree
with mapOpt of this function on every non-empty file list. -/
def process_site {Q M : Type} (parse : String → Option Q)
    (latlon_to_modis : Q → Q → M × M) (f : XlsxFile) : Option (OutRow Q M) :=
  (get_site_lat_lon f).bind fun r =>
    (parse r.LOCATION_LAT).bind fun la =>
      (parse r.LOCATION_LONG).bind fun lo =>
        some ⟨r.SITE_ID, la, lo,
              (latlon_to_modis la lo).1, (latlon_to_modis la lo).2⟩

/-- The coercion of lines 26-28 summarised per row: parse both coordinate
strings, keep SITE_ID. -/
def numOne {Q : Type} (parse : String → Option Q) (r : SiteRec) :
    Option (SiteRecNum Q) :=
  (parse r.LOCATION_LAT).bind fun la =>
    (parse r.LOCATION_LONG).bind fun lo =>
      some ⟨r.SITE_ID, la, lo⟩

/-- The MODIS step of lines 30-35 summarised per row. -/
def modisOne {Q M : Type} (latlon_to_modis : Q → Q → M × M) (n : SiteRecNum Q) :
    OutRow Q M :=
  ⟨n.SITE_ID, n.LOCATION_LAT, n.LOCATION_LONG,
   (latlon_to_modis n.LOCATION_LAT n.LOCATION_LONG).1,
   (latlon_to_modis n.LOCATION_LAT n.LOCATION_LONG).2⟩

-- Concrete instantiations used to exercise the pipeline on closed inputs.

/-- A toy numeric parser for concrete runs of the pipeline. -/
def parseW : String → Option Int :=
  fun s => if s = "10" then some 10 else if s = "20" then some 20 else none

/-- A toy coordinate transform for concrete runs of the pipeline. -/
def ltmW : Int → Int → Int × Int :=
  fun a b => (a + b, a - b)

/-- A well-formed sample input file. -/
def fileW : XlsxFile :=
  ⟨[("SITE_ID", ["US-xyz"]),
    ("VARIABLE", ["LOCATION_LAT", "LOCATION_LONG"]),
    ("DATAVALUE", ["10", "20"])]⟩

/-- A toy cell renderer for concrete runs of the CSV write. -/
def showW : Int → String := fun _ => "n"

/-- The record extracted from the sample file. -/
def recW : SiteRec := ⟨"US-xyz", "10", "20"⟩

/-- The table the pipeline produces on the single sample file. -/
def outW : OutRow Int Int := ⟨"US-xyz", 10, 20, 30, -10⟩

/-- A malformed sample file: it has no SITE_ID column. -/
def fBad : XlsxFile :=
  ⟨[("VARIABLE", ["LOCATION_LAT", "LOCATION_LONG"]),
    ("DATAVALUE", ["10", "20"])]⟩

/-- The sample file with an extra SITE_ID value and an extra duplicate
LOCATION_LAT row appended after the first occurrences. -/
def fileW2 : XlsxFile :=
  ⟨[("SITE_ID", ["US-xyz", "US-dup"]),
    ("VARIABLE", ["LOCATION_LAT", "LOCATION_LONG", "LOCATION_LAT"]),
    ("DATAVALUE", ["10", "20", "99"])]⟩

-- Basic sanity facts about the model on the sample input.

theorem sanity_get_site_lat_lon : get_site_lat_lon fileW = some recW := by decide

theorem sanity_run_script : run_script parseW ltmW [fileW] = some [outW] := by
  decide

-- General lemmas about mapOpt, the error-propagating traversal.

theorem mapOpt_eq_some {α β : Type} {f : α → Option β} :
    ∀ {as : List α} {bs : List β},
      mapOpt f as = some bs ↔ List.Forall₂ (fun a b => f a = some b) as bs := by
  intro as
  induction as with
  | nil =>
    intro bs
    simp [mapOpt, List.forall₂_nil_left_iff, eq_comm]
  | cons a as ih =>
    intro bs
    simp only [mapOpt, Option.bind_eq_some, Option.some.injEq,
      List.forall₂_cons_left_iff]
    constructor
    · rintro ⟨b, hb, bs', hbs', rfl⟩
      exact ⟨b, bs', hb, ih.mp hbs', rfl⟩
    · rintro ⟨b, bs', hb, h2, rfl⟩
      exact ⟨b, hb, bs', ih.mpr h2, rfl⟩

theorem mapOpt_length {α β : Type} {f : α → Option β} {as : List α} {bs : List β}
    (h : mapOpt f as = some bs) : bs.length = as.length :=
  (mapOpt_eq_some.mp h).length_eq.symm

theorem mapOpt_get {α β : Type} {f : α → Option β} {as : List α} {bs : List β}
    (h : mapOpt f as = some bs) (i : Nat) (h1 : i < as.length) (h2 : i < bs.length) :
    f (as.get ⟨i, h1⟩) = some (bs.get ⟨i, h2⟩) :=
  (List.forall₂_iff_get.mp (mapOpt_eq_some.mp h)).2 i h1 h2

theorem mapOpt_isSome {α β : Type} {f : α → Option β} :
    ∀ {as : List α}, (mapOpt f as).isSome = true ↔ ∀ a ∈ as, (f a).isSome = true := by
  intro as
  induction as with
  | nil => simp [mapOpt]
  | cons a as ih =>
    cases h1 : f a with
    | none => simp [mapOpt, h1]
    | some b =>
      cases h2 : mapOpt f as with
      | none => simp_all [mapOpt, h1, h2]
      | some bs => simp_all [mapOpt, h1, h2]

theorem mapOpt_eq_none_of_mem {α β : Type} {f : α → Option β} {as : List α} {a : α}
    (ha : a ∈ as) (hf : f a = none) : mapOpt f as = none := by
  cases h : mapOpt f as with
  | none => rfl
  | some bs =>
    have hs : (mapOpt f as).isSome = true := by rw [h]; rfl
    have := mapOpt_isSome.mp hs a ha
    simp [hf] at this

theorem forall₂_map_eq {α β γ : Type} {R : α → β → Prop} {f : α → γ} {g : β → γ}
    (hfg : ∀ a b, R a b → f a = g b) :
    ∀ {as : List α} {bs : List β}, List.Forall₂ R as bs → as.map f = bs.map g := by
  intro as bs h
  induction h with
  | nil => rfl
  | cons h1 _ ih => simp [hfg _ _ h1, ih]

theorem mapOpt_congr {α β : Type} {f g : α → Option β} :
    ∀ {as : List α}, (∀ a ∈ as, f a = g a) → mapOpt f as = mapOpt g as := by
  intro as
  induction as with
  | nil => intro _; rfl
  | cons a as ih =>
    intro h
    have h1 := h a (by simp)
    have h2 : mapOpt f as = mapOpt g as := ih (fun x hx => h x (by simp [hx]))
    simp [mapOpt, h1, h2]

theorem mapOpt_bind {α β γ : Type} (g : α → Option β) (h : β → Option γ) :
    ∀ as : List α,
      mapOpt (fun a => (g a).bind h) as = (mapOpt g as).bind (mapOpt h) := by
  intro as
  induction as with
  | nil => rfl
  | cons a as ih =>
    cases hg : g a with
    | none => simp [mapOpt, hg]
    | some b =>
      cases hh : h b with
      | none =>
        cases hr : mapOpt g as with
        | none => simp [mapOpt, hg, hh, hr, ih]
        | some bs => simp [mapOpt, hg, hh, hr, ih]
      | some c =>
        cases hr : mapOpt g as with
        | none => simp [mapOpt, hg, hh, hr, ih]
        | some bs => simp [mapOpt, hg, hh, hr, ih]

theorem mapOpt_pure {α γ : Type} (k : α → γ) :
    ∀ as : List α, mapOpt (fun a => some (k a)) as = some (as.map k) := by
  intro as
  induction as with
  | nil => rfl
  | cons a as ih => simp [mapOpt, ih]

theorem mapOpt_map_list {α β γ : Type} (f : β → Option γ) (g : α → β) :
    ∀ as : List α, mapOpt f (as.map g) = mapOpt (fun a => f (g a)) as := by
  intro as
  induction as with
  | nil => rfl
  | cons a as ih => simp [mapOpt, ih]

-- Structural lemmas relating the column-wise pipeline to its per-row form.

theorem coerce_two_pass {Q : Type} (parse : String → Option Q) :
    ∀ recs : List SiteRec,
      ((mapOpt (fun r => parse r.LOCATION_LAT) recs).bind fun lats =>
        (mapOpt (fun r => parse r.LOCATION_LONG) recs).bind fun longs =>
          some (zipNum recs lats longs)) = mapOpt (numOne parse) recs := by
  intro recs
  induction recs with
  | nil => rfl
  | cons r rs ih =>
    cases h1 : parse r.LOCATION_LAT with
    | none => simp [mapOpt, numOne, h1]
    | some la =>
      cases h2 : mapOpt (fun r => parse r.LOCATION_LAT) rs with
      | none =>
        have hn : mapOpt (numOne parse) rs = none := by rw [← ih, h2]; rfl
        simp [mapOpt, numOne, h1, h2, hn]
      | some las =>
        cases h3 : parse r.LOCATION_LONG with
        | none => simp [mapOpt, numOne, h1, h2, h3]
        | some lo =>
          cases h4 : mapOpt (fun r => parse r.LOCATION_LONG) rs with
          | none =>
            have hn : mapOpt (numOne parse) rs = none := by
              rw [← ih, h2, h4]; rfl
            simp [mapOpt, numOne, h1, h2, h3, h4, hn]
          | some los =>
            have hs : mapOpt (numOne parse) rs = some (zipNum rs las los) := by
              rw [← ih, h2, h4]; rfl
            simp [mapOpt, numOne, zipNum, h1, h2, h3, h4, hs]

theorem coerce_numeric_eq {Q : Type} (parse : String → Option Q)
    (recs : List SiteRec) :
    coerce_numeric parse recs =
      if recs = [] then none else mapOpt (numOne parse) recs := by
  cases recs with
  | nil => rfl
  | cons r rs =>
    rw [if_neg (List.cons_ne_nil r rs)]
    show ((to_numeric parse ((r :: rs).map SiteRec.LOCATION_LAT)).bind fun lats =>
      (to_numeric parse ((r :: rs).map SiteRec.LOCATION_LONG)).bind fun longs =>
        some (zipNum (r :: rs) lats longs)) = _
    rw [to_numeric, to_numeric, mapOpt_map_list, mapOpt_map_list, coerce_two_pass]

theorem add_modis_eq_map {Q M : Type} (ltm : Q → Q → M × M) :
    ∀ recs : List (SiteRecNum Q), add_modis ltm recs = recs.map (modisOne ltm) := by
  intro recs
  induction recs with
  | nil => rfl
  | cons r rs ih =>
    show zipOut (r :: rs) _ = _
    simp only [List.map, zipOut, modisOne]
    rw [← ih]
    rfl

theorem process_site_eq {Q M : Type} (parse : String → Option Q)
    (ltm : Q → Q → M × M) (f : XlsxFile) :
    process_site parse ltm f =
      (get_site_lat_lon f).bind fun r =>
        (numOne parse r).bind fun n => some (modisOne ltm n) := by
  cases hr : get_site_lat_lon f with
  | none => simp [process_site, hr]
  | some r =>
    cases h1 : parse r.LOCATION_LAT with
    | none => simp [process_site, numOne, hr, h1]
    | some la =>
      cases h2 : parse r.LOCATION_LONG with
      | none => simp [process_site, numOne, hr, h1, h2]
      | some lo => simp [process_site, numOne, modisOne, hr, h1, h2]

theorem run_script_eq {Q M : Type} (parse : String → Option Q)
    (ltm : Q → Q → M × M) (sites : List XlsxFile) :
    run_script parse ltm sites =
      if sites = [] then none else mapOpt (process_site parse ltm) sites := by
  cases sites with
  | nil => rfl
  | cons s ss =>
    rw [if_neg (List.cons_ne_nil s ss)]
    have hrhs : mapOpt (process_site parse ltm) (s :: ss) =
        (mapOpt get_site_lat_lon (s :: ss)).bind fun recs =>
          (mapOpt (numOne parse) recs).bind fun nums =>
            some (nums.map (modisOne ltm)) := by
      rw [mapOpt_congr (fun f _ => process_site_eq parse ltm f)]
      rw [mapOpt_bind get_site_lat_lon
        (fun r => (numOne parse r).bind fun n => some (modisOne ltm n))]
      cases hr : mapOpt get_site_lat_lon (s :: ss) with
      | none => rfl
      | some recs =>
        show (mapOpt _ recs) = _
        rw [mapOpt_bind (numOne parse) (fun n => some (modisOne ltm n))]
        cases hn : mapOpt (numOne parse) recs with
        | none => simp [hn]
        | some nums => simp [hn, mapOpt_pure]
    rw [hrhs]
    show ((mapOpt get_site_lat_lon (s :: ss)).bind fun site_locs =>
      (coerce_numeric parse site_locs).bind fun nums =>
        some (add_modis ltm nums)) = _
    cases hr : mapOpt get_site_lat_lon (s :: ss) with
    | none => rfl
    | some recs =>
      have hne : recs ≠ [] := by
        intro h0
        have := mapOpt_length hr
        rw [h0] at this
        simp at this
      show ((coerce_numeric parse recs).bind fun nums =>
        some (add_modis ltm nums)) = _
      rw [coerce_numeric_eq, if_neg hne]
      cases hn : mapOpt (numOne parse) recs with
      | none => simp [hn]
      | some nums => simp [hn, add_modis_eq_map]

-- Per-row facts used by several claims.

theorem process_site_fields {Q M : Type} {parse : String → Option Q}
    {ltm : Q → Q → M × M} {f : XlsxFile} {o : OutRow Q M}
    (h : process_site parse ltm f = some o) :
    o.LOCATION_MODIS_X = (ltm o.LOCATION_LAT o.LOCATION_LONG).1 ∧
    o.LOCATION_MODIS_Y = (ltm o.LOCATION_LAT o.LOCATION_LONG).2 := by
  simp only [process_site, Option.bind_eq_some, Option.some.injEq] at h
  obtain ⟨r, _, la, _, lo, _, ho⟩ := h
  subst ho
  exact ⟨rfl, rfl⟩

theorem numOne_some {Q : Type} {parse : String → Option Q} {r : SiteRec}
    {n : SiteRecNum Q} (h : numOne parse r = some n) :
    parse r.LOCATION_LAT = some n.LOCATION_LAT ∧
    parse r.LOCATION_LONG = some n.LOCATION_LONG ∧ n.SITE_ID = r.SITE_ID := by
  simp only [numOne, Option.bind_eq_some, Option.some.injEq] at h
  obtain ⟨la, hla, lo, hlo, hn⟩ := h
  subst hn
  exact ⟨hla, hlo, rfl⟩

theorem numOne_isSome {Q : Type} (parse : String → Option Q) (r : SiteRec) :
    (numOne parse r).isSome = true ↔
      (parse r.LOCATION_LAT).isSome = true ∧
      (parse r.LOCATION_LONG).isSome = true := by
  cases h1 : parse r.LOCATION_LAT with
  | none => simp [numOne, h1]
  | some la =>
    cases h2 : parse r.LOCATION_LONG with
    | none => simp [numOne, h1, h2]
    | some lo => simp [numOne, h1, h2]

/-- C1: for every row of the combined table, LOCATION_MODIS_X and
LOCATION_MODIS_Y are the first and second components of latlon_to_modis
applied to that row's numeric (LOCATION_LAT, LOCATION_LONG) pair, latitude
first; the transform is applied row-wise and row i of the output is fully
determined by file i alone (process_site of that one file). -/
theorem C1_modis_rowwise {Q M : Type} (parse : String → Option Q)
    (ltm : Q → Q → M × M) (sites : List XlsxFile) (out : List (OutRow Q M))
    (h : run_script parse ltm sites = some out) :
    out.length = sites.length ∧
    ∀ i (hi : i < sites.length) (ho : i < out.length),
      process_site parse ltm (sites.get ⟨i, hi⟩) = some (out.get ⟨i, ho⟩) ∧
      (out.get ⟨i, ho⟩).LOCATION_MODIS_X =
        (ltm (out.get ⟨i, ho⟩).LOCATION_LAT (out.get ⟨i, ho⟩).LOCATION_LONG).1 ∧
      (out.get ⟨i, ho⟩).LOCATION_MODIS_Y =
        (ltm (out.get ⟨i, ho⟩).LOCATION_LAT (out.get ⟨i, ho⟩).LOCATION_LONG).2 := by
  rw [run_script_eq] at h
  split_ifs at h with hs
  refine ⟨mapOpt_length h, ?_⟩
  intro i hi ho
  have hp := mapOpt_get h i hi ho
  exact ⟨hp, process_site_fields hp⟩

/-- Witness for C1 on the sample directory of one file. -/
theorem C1_modis_rowwise_witness :
    ([outW].length = [fileW].length ∧
      ∀ i (hi : i < [fileW].length) (ho : i < [outW].length),
        process_site parseW ltmW ([fileW].get ⟨i, hi⟩) = some ([outW].get ⟨i, ho⟩) ∧
        ([outW].get ⟨i, ho⟩).LOCATION_MODIS_X =
          (ltmW ([outW].get ⟨i, ho⟩).LOCATION_LAT
            ([outW].get ⟨i, ho⟩).LOCATION_LONG).1 ∧
        ([outW].get ⟨i, ho⟩).LOCATION_MODIS_Y =
          (ltmW ([outW].get ⟨i, ho⟩).LOCATION_LAT
            ([outW].get ⟨i, ho⟩).LOCATION_LONG).2) :=
  C1_modis_rowwise parseW ltmW [fileW] [outW] (by decide)

/-- C2: whenever the script completes, every enumerated input file has
contributed exactly one row: the output row count equals the input file
count. -/
theorem C2_row_count {Q M : Type} (parse : String → Option Q)
    (ltm : Q → Q → M × M) (sites : List XlsxFile) (out : List (OutRow Q M))
    (h : run_script parse ltm sites = some out) : out.length = sites.length := by
  rw [run_script_eq] at h
  split_ifs at h with hs
  exact mapOpt_length h

/-- Witness for C2 on the sample directory of one file. -/
theorem C2_row_count_witness : [outW].length = [fileW].length :=
  C2_row_count parseW ltmW [fileW] [outW] (by decide)

/-- C9: the pipeline preserves the enumeration order of the input files:
the output table is exactly the order-preserving traversal of the file
list, so row i of the table (and of the CSV body) comes from file i. -/
theorem C9_row_order {Q M : Type} (parse : String → Option Q)
    (ltm : Q → Q → M × M) (sites : List XlsxFile) (out : List (OutRow Q M))
    (h : run_script parse ltm sites = some out) :
    mapOpt (process_site parse ltm) sites = some out ∧
    out.length = sites.length ∧
    (∀ i (hi : i < sites.length) (ho : i < out.length),
      process_site parse ltm (sites.get ⟨i, hi⟩) = some (out.get ⟨i, ho⟩)) ∧
    (to_csv (fun _ : Q => "") (fun _ : M => "") out).drop 1 =
      out.map (fun r => [r.SITE_ID, "", "", "", ""]) := by
  rw [run_script_eq] at h
  split_ifs at h with hs
  exact ⟨h, mapOpt_length h, fun i hi ho => mapOpt_get h i hi ho, rfl⟩

/-- Witness for C9 on the sample directory of one file. -/
theorem C9_row_order_witness :
    (mapOpt (process_site parseW ltmW) [fileW] = some [outW] ∧
      [outW].length = [fileW].length ∧
      (∀ i (hi : i < [fileW].length) (ho : i < [outW].length),
        process_site parseW ltmW ([fileW].get ⟨i, hi⟩) = some ([outW].get ⟨i, ho⟩)) ∧
      (to_csv (fun _ : Int => "") (fun _ : Int => "") [outW]).drop 1 =
        [outW].map (fun r => [r.SITE_ID, "", "", "", ""])) :=
  C9_row_order parseW ltmW [fileW] [outW] (by decide)

/-- C3: when the script completes and writes its file, the CSV has exactly
the five columns SITE_ID, LOCATION_LAT, LOCATION_LONG, LOCATION_MODIS_X,
LOCATION_MODIS_Y in that order, every line has exactly those five cells
(no index column), and the body is the rendered table. -/
theorem C3_csv_columns {Q M : Type} (argv : List String)
    (env : String → Option String) (parse : String → Option Q)
    (ltm : Q → Q → M × M) (showQ : Q → String) (showM : M → String)
    (dirContents : List XlsxFile) (path : String) (csv : List (List String))
    (h : run_script_io argv env parse ltm showQ showM dirContents =
      some (path, csv)) :
    path = out_path ∧
    csv.head? = some ["SITE_ID", "LOCATION_LAT", "LOCATION_LONG",
      "LOCATION_MODIS_X", "LOCATION_MODIS_Y"] ∧
    (∀ line ∈ csv, line.length = 5) ∧
    ∃ out, run_script parse ltm dirContents = some out ∧
      csv = csv_header :: out.map (fun r =>
        [r.SITE_ID, showQ r.LOCATION_LAT, showQ r.LOCATION_LONG,
         showM r.LOCATION_MODIS_X, showM r.LOCATION_MODIS_Y]) := by
  simp only [run_script_io] at h
  obtain ⟨out, hout, heq⟩ := Option.map_eq_some'.mp h
  injection heq with h1 h2
  subst h1
  subst h2
  refine ⟨rfl, rfl, ?_, out, hout, rfl⟩
  intro line hline
  rcases List.mem_cons.mp hline with h0 | h0
  · subst h0; rfl
  · obtain ⟨r, _, hr⟩ := List.mem_map.mp h0
    subst hr
    rfl

/-- Witness for C3 on the sample directory of one file. -/
theorem C3_csv_columns_witness :
    ("data_out/ameriflux_canopy_temp_site_locs.csv" : String) = out_path ∧
    ([csv_header, ["US-xyz", "n", "n", "n", "n"]] : List (List String)).head? =
      some ["SITE_ID", "LOCATION_LAT", "LOCATION_LONG",
        "LOCATION_MODIS_X", "LOCATION_MODIS_Y"] ∧
    (∀ line ∈ ([csv_header, ["US-xyz", "n", "n", "n", "n"]] : List (List String)),
      line.length = 5) ∧
    ∃ out, run_script parseW ltmW [fileW] = some out ∧
      ([csv_header, ["US-xyz", "n", "n", "n", "n"]] : List (List String)) =
        csv_header :: out.map (fun r =>
          [r.SITE_ID, showW r.LOCATION_LAT, showW r.LOCATION_LONG,
           showW r.LOCATION_MODIS_X, showW r.LOCATION_MODIS_Y]) :=
  C3_csv_columns [] (fun _ => none) parseW ltmW showW showW [fileW]
    "data_out/ameriflux_canopy_temp_site_locs.csv"
    [csv_header, ["US-xyz", "n", "n", "n", "n"]] (by decide)

/-- C6: on an empty directory the script raises an uncaught error (the
empty table has no LOCATION_LAT column to coerce) and terminates before
the CSV write, so no output file is produced. -/
theorem C6_empty_dir {Q M : Type} (argv : List String)
    (env : String → Option String) (parse : String → Option Q)
    (ltm : Q → Q → M × M) (showQ : Q → String) (showM : M → String) :
    run_script parse ltm [] = none ∧
    run_script_io argv env parse ltm showQ showM [] = none :=
  ⟨rfl, rfl⟩

/-- C7: the process result depends only on the directory contents: any two
command lines and environments give identical results, and the only write
target is the hard-coded out_path. -/
theorem C7_no_cli_env {Q M : Type} (argv1 argv2 : List String)
    (env1 env2 : String → Option String) (parse : String → Option Q)
    (ltm : Q → Q → M × M) (showQ : Q → String) (showM : M → String)
    (dirContents : List XlsxFile) :
    run_script_io argv1 env1 parse ltm showQ showM dirContents =
      run_script_io argv2 env2 parse ltm showQ showM dirContents ∧
    ∀ path csv, run_script_io argv1 env1 parse ltm showQ showM dirContents =
      some (path, csv) → path = out_path := by
  refine ⟨rfl, ?_⟩
  intro path csv h
  simp only [run_script_io] at h
  obtain ⟨out, _, heq⟩ := Option.map_eq_some'.mp h
  injection heq with h1 _
  exact h1.symm

/-- Witness for C7: two different command lines and environments on the
sample directory. -/
theorem C7_no_cli_env_witness :
    (run_script_io ["--flag"] (fun _ => some "A") parseW ltmW showW showW [fileW] =
      run_script_io [] (fun _ => none) parseW ltmW showW showW [fileW]) ∧
    ("data_out/ameriflux_canopy_temp_site_locs.csv" : String) = out_path := by
  have h := C7_no_cli_env ["--flag"] [] (fun _ => some "A") (fun _ => none)
    parseW ltmW showW showW [fileW]
  exact ⟨h.1, h.2 "data_out/ameriflux_canopy_temp_site_locs.csv"
    [csv_header, ["US-xyz", "n", "n", "n", "n"]] (by decide)⟩

/-- C4: the coercion step succeeds exactly when every extracted
LOCATION_LAT and LOCATION_LONG value is parseable; on success the numeric
columns of the output are the parses of the extracted strings, and on any
unparseable value the script dies (returns none). -/
theorem C4_numeric_coercion {Q M : Type} (parse : String → Option Q)
    (ltm : Q → Q → M × M) (sites : List XlsxFile) (recs : List SiteRec)
    (hext : mapOpt get_site_lat_lon sites = some recs) (hne : recs ≠ []) :
    ((run_script parse ltm sites).isSome = true ↔
      ∀ r ∈ recs, (parse r.LOCATION_LAT).isSome = true ∧
        (parse r.LOCATION_LONG).isSome = true) ∧
    ∀ out, run_script parse ltm sites = some out →
      out.map (fun o => some o.LOCATION_LAT) =
        recs.map (fun r => parse r.LOCATION_LAT) ∧
      out.map (fun o => some o.LOCATION_LONG) =
        recs.map (fun r => parse r.LOCATION_LONG) := by
  have hrun : run_script parse ltm sites =
      (mapOpt (numOne parse) recs).bind fun nums =>
        some (add_modis ltm nums) := by
    rw [run_script, hext]
    simp only [Option.some_bind]
    rw [coerce_numeric_eq, if_neg hne]
  constructor
  · rw [hrun]
    cases hn : mapOpt (numOne parse) recs with
    | none =>
      simp only [Option.none_bind]
      constructor
      · intro hfalse; exact absurd hfalse (by simp)
      · intro hall
        have hsome : (mapOpt (numOne parse) recs).isSome = true :=
          mapOpt_isSome.mpr (fun r hr => (numOne_isSome parse r).mpr (hall r hr))
        rw [hn] at hsome
        exact absurd hsome (by simp)
    | some nums =>
      simp only [Option.some_bind, Option.isSome_some, true_iff]
      intro r hr
      have hsome : (numOne parse r).isSome = true :=
        mapOpt_isSome.mp (by rw [hn]; rfl) r hr
      exact (numOne_isSome parse r).mp hsome
  · intro out hout
    rw [hrun] at hout
    obtain ⟨nums, hn, hsome⟩ := Option.bind_eq_some.mp hout
    have hmap : out = nums.map (modisOne ltm) := by
      rw [← Option.some.inj hsome, add_modis_eq_map]
    have hF := mapOpt_eq_some.mp hn
    have hlat : recs.map (fun r => parse r.LOCATION_LAT) =
        nums.map (fun n => some n.LOCATION_LAT) :=
      forall₂_map_eq (fun r n hrn => (numOne_some hrn).1) hF
    have hlong : recs.map (fun r => parse r.LOCATION_LONG) =
        nums.map (fun n => some n.LOCATION_LONG) :=
      forall₂_map_eq (fun r n hrn => (numOne_some hrn).2.1) hF
    subst hmap
    constructor
    · rw [List.map_map, hlat]; rfl
    · rw [List.map_map, hlong]; rfl

/-- Witness for C4 on the sample directory of one file. -/
theorem C4_numeric_coercion_witness :
    (((run_script parseW ltmW [fileW]).isSome = true ↔
        ∀ r ∈ [recW], (parseW r.LOCATION_LAT).isSome = true ∧
          (parseW r.LOCATION_LONG).isSome = true) ∧
      ∀ out, run_script parseW ltmW [fileW] = some out →
        out.map (fun o => some o.LOCATION_LAT) =
          [recW].map (fun r => parseW r.LOCATION_LAT) ∧
        out.map (fun o => some o.LOCATION_LONG) =
          [recW].map (fun r => parseW r.LOCATION_LONG)) :=
  C4_numeric_coercion parseW ltmW [fileW] [recW] (by decide) (by decide)

/-- When no VARIABLE cell equals the target name (or a needed column is
absent), the first-match lookup raises an uncaught error (none). -/
theorem lookup_target_none {f : XlsxFile} {tv : String}
    (h : ∀ v ∈ (f.getCol "VARIABLE").getD [], v ≠ tv) :
    lookup_target f tv = none := by
  cases hv : f.getCol "VARIABLE" with
  | none => simp [lookup_target, hv]
  | some vc =>
    cases hd : f.getCol "DATAVALUE" with
    | none => simp [lookup_target, hv, hd]
    | some dc =>
      have hfil : (vc.zip dc).filter (fun p => p.1 == tv) = [] := by
        rw [List.filter_eq_nil_iff]
        simp only [beq_iff_eq, Prod.forall]
        intro a b hab
        exact h a (by rw [hv]; exact (List.of_mem_zip hab).1)
      simp only [lookup_target, hv, hd, Option.some_bind]
      rw [hfil]
      rfl

/-- C5: an input file with a missing required field — no SITE_ID column,
an empty SITE_ID column, or no row whose VARIABLE equals LOCATION_LAT or
LOCATION_LONG — makes the extraction raise an uncaught error, and the
whole script dies with no recovery. -/
theorem C5_missing_required {Q M : Type} (parse : String → Option Q)
    (ltm : Q → Q → M × M) (f : XlsxFile) (sites : List XlsxFile)
    (hmem : f ∈ sites)
    (h : f.getCol "SITE_ID" = none ∨ f.getCol "SITE_ID" = some [] ∨
      (∀ v ∈ (f.getCol "VARIABLE").getD [], v ≠ "LOCATION_LAT") ∨
      (∀ v ∈ (f.getCol "VARIABLE").getD [], v ≠ "LOCATION_LONG")) :
    get_site_lat_lon f = none ∧ run_script parse ltm sites = none := by
  have hg : get_site_lat_lon f = none := by
    rcases h with h1 | h1 | h1 | h1
    · simp [get_site_lat_lon, h1]
    · simp [get_site_lat_lon, h1]
    · have hl := lookup_target_none h1
      cases hsc : f.getCol "SITE_ID" with
      | none => simp [get_site_lat_lon, hsc]
      | some sc =>
        cases hh : sc.head? with
        | none => simp [get_site_lat_lon, hsc, hh]
        | some sid => simp [get_site_lat_lon, hsc, hh, hl]
    · have hl := lookup_target_none h1
      cases hsc : f.getCol "SITE_ID" with
      | none => simp [get_site_lat_lon, hsc]
      | some sc =>
        cases hh : sc.head? with
        | none => simp [get_site_lat_lon, hsc, hh]
        | some sid =>
          cases hlat : lookup_target f "LOCATION_LAT" with
          | none => simp [get_site_lat_lon, hsc, hh, hlat]
          | some lat => simp [get_site_lat_lon, hsc, hh, hlat, hl]
  refine ⟨hg, ?_⟩
  have hmo : mapOpt get_site_lat_lon sites = none := mapOpt_eq_none_of_mem hmem hg
  simp [run_script, hmo]

/-- Witness for C5 on a file with no SITE_ID column. -/
theorem C5_missing_required_witness :
    get_site_lat_lon fBad = none ∧ run_script parseW ltmW [fBad] = none :=
  C5_missing_required parseW ltmW fBad [fBad] (by decide) (Or.inl (by decide))

/-- C8: only the first occurrence of each required field matters: SITE_ID
is the head of the SITE_ID column and each coordinate is the DATAVALUE of
the first matching VARIABLE row; appending further SITE_ID values or
duplicate VARIABLE/DATAVALUE rows after the first occurrences leaves the
extracted record unchanged. -/
theorem C8_first_occurrence (f g : XlsxFile) (sc es vc dc ev ed : List String)
    (r : SiteRec)
    (hsc : f.getCol "SITE_ID" = some sc)
    (hvc : f.getCol "VARIABLE" = some vc)
    (hdc : f.getCol "DATAVALUE" = some dc)
    (hlen : vc.length = dc.length)
    (hgs : g.getCol "SITE_ID" = some (sc ++ es))
    (hgv : g.getCol "VARIABLE" = some (vc ++ ev))
    (hgd : g.getCol "DATAVALUE" = some (dc ++ ed))
    (h : get_site_lat_lon f = some r) :
    (sc.head? = some r.SITE_ID ∧
      (((vc.zip dc).filter (fun p => p.1 == "LOCATION_LAT")).map
        (fun p => p.2)).head? = some r.LOCATION_LAT ∧
      (((vc.zip dc).filter (fun p => p.1 == "LOCATION_LONG")).map
        (fun p => p.2)).head? = some r.LOCATION_LONG) ∧
    get_site_lat_lon g = some r := by
  simp only [get_site_lat_lon, lookup_target, hsc, hvc, hdc,
    Option.some_bind] at h
  obtain ⟨sid, hsid, h2⟩ := Option.bind_eq_some.mp h
  obtain ⟨lat, hlat, h3⟩ := Option.bind_eq_some.mp h2
  obtain ⟨long, hlong, h4⟩ := Option.bind_eq_some.mp h3
  have hr := Option.some.inj h4
  subst hr
  refine ⟨⟨hsid, hlat, hlong⟩, ?_⟩
  simp only [get_site_lat_lon, lookup_target, hgs, hgv, hgd, Option.some_bind,
    List.zip_append hlen, List.filter_append, List.map_append,
    List.head?_append, hsid, hlat, hlong]
  rfl

/-- Witness for C8: the sample file against the same file with a second
SITE_ID value and a duplicate LOCATION_LAT row appended. -/
theorem C8_first_occurrence_witness :
    ((["US-xyz"] : List String).head? = some recW.SITE_ID ∧
      ((((["LOCATION_LAT", "LOCATION_LONG"] : List String).zip
          (["10", "20"] : List String)).filter
          (fun p => p.1 == "LOCATION_LAT")).map (fun p => p.2)).head? =
        some recW.LOCATION_LAT ∧
      ((((["LOCATION_LAT", "LOCATION_LONG"] : List String).zip
          (["10", "20"] : List String)).filter
          (fun p => p.1 == "LOCATION_LONG")).map (fun p => p.2)).head? =
        some recW.LOCATION_LONG) ∧
    get_site_lat_lon fileW2 = some recW :=
  C8_first_occurrence fileW fileW2 ["US-xyz"] ["US-dup"]
    ["LOCATION_LAT", "LOCATION_LONG"] ["10", "20"] ["LOCATION_LAT"] ["99"]
    recW (by decide) (by decide) (by decide) (by decide) (by decide)
    (by decide) (by decide) (by decide)

/-- C10: frame property of the two update steps: numeric coercion keeps
the SITE_ID column unchanged, and appending the MODIS columns keeps the
SITE_ID, LOCATION_LAT and LOCATION_LONG columns unchanged. -/
theorem C10_frame {Q M : Type} (parse : String → Option Q)
    (ltm : Q → Q → M × M) (recs : List SiteRec) (nums : List (SiteRecNum Q))
    (h : coerce_numeric parse recs = some nums) :
    nums.map (fun n => n.SITE_ID) = recs.map (fun r => r.SITE_ID) ∧
    (add_modis ltm nums).map (fun o => o.SITE_ID) =
      nums.map (fun n => n.SITE_ID) ∧
    (add_modis ltm nums).map (fun o => o.LOCATION_LAT) =
      nums.map (fun n => n.LOCATION_LAT) ∧
    (add_modis ltm nums).map (fun o => o.LOCATION_LONG) =
      nums.map (fun n => n.LOCATION_LONG) := by
  rw [coerce_numeric_eq] at h
  split_ifs at h with hr
  have hF := mapOpt_eq_some.mp h
  have hsid : recs.map (fun r => r.SITE_ID) = nums.map (fun n => n.SITE_ID) :=
    @forall₂_map_eq SiteRec (SiteRecNum Q) String
      (fun r n => numOne parse r = some n)
      (fun r => r.SITE_ID) (fun n => n.SITE_ID)
      (fun r n hrn => ((numOne_some hrn).2.2).symm) recs nums hF
  refine ⟨hsid.symm, ?_, ?_, ?_⟩
  all_goals rw [add_modis_eq_map, List.map_map]; rfl

/-- Witness for C10 on the extracted sample table. -/
theorem C10_frame_witness :
    ([(⟨"US-xyz", 10, 20⟩ : SiteRecNum Int)].map (fun n => n.SITE_ID) =
      [recW].map (fun r => r.SITE_ID) ∧
    (add_modis ltmW [(⟨"US-xyz", 10, 20⟩ : SiteRecNum Int)]).map
        (fun o => o.SITE_ID) =
      [(⟨"US-xyz", 10, 20⟩ : SiteRecNum Int)].map (fun n => n.SITE_ID) ∧
    (add_modis ltmW [(⟨"US-xyz", 10, 20⟩ : SiteRecNum Int)]).map
        (fun o => o.LOCATION_LAT) =
      [(⟨"US-xyz", 10, 20⟩ : SiteRecNum Int)].map (fun n => n.LOCATION_LAT) ∧
    (add_modis ltmW [(⟨"US-xyz", 10, 20⟩ : SiteRecNum Int)]).map
        (fun o => o.LOCATION_LONG) =
      [(⟨"US-xyz", 10, 20⟩ : SiteRecNum Int)].map (fun n => n.LOCATION_LONG)) :=
  C10_frame parseW ltmW [recW] [(⟨"US-xyz", 10, 20⟩ : SiteRecNum Int)]
    (by decide)
